import Mathlib

/-!
Verification of the tool-deployment orchestrator (components-api).

This file gives a shallow embedding, in Lean, of the data model and the
operations of the orchestrator: the deployment state machine and its
persistence, the build poll loop, the build-status mapping, admission
control, authentication, and the deployment CRUD handlers.  Python dicts
are embedded as association lists with insert-or-replace update (matching
Python dict assignment), fallible code returns `Except`, and wall-clock
time in the build poll loop is counted in seconds with one loop iteration
per 2-second sleep.
-/

set_option maxRecDepth 4096

/-! ## Python dict embedding -/

/-- Lookup of a key in a Python dict embedded as an association list
(first matching entry). -/
def dictGet? {α : Type} (k : String) : List (String × α) → Option α
  | [] => none
  | (k', v) :: rest => if k' = k then some v else dictGet? k rest

/-- Python dict assignment `d[k] = v`: replace the entry in place if the key
exists, otherwise append at the end (insertion order preserved). -/
def dictSet {α : Type} (k : String) (v : α) : List (String × α) → List (String × α)
  | [] => [(k, v)]
  | (k', v') :: rest => if k' = k then (k, v) :: rest else (k', v') :: dictSet k v rest

/-! ## Deployment data model (src/components/models/api_models.py) -/

/-- `DeploymentState` exactly as declared in
src/components/models/api_models.py lines 145-151: five members.  Note
that the enum has no `cancelling` and no `cancelled` member. -/
inductive DeploymentState
  | pending
  | running
  | failed
  | timed_out
  | successful
deriving DecidableEq, Repr

/-- The `.value` of a `DeploymentState` member (members are `str` values). -/
def DeploymentState.value : DeploymentState → String
  | .pending => "pending"
  | .running => "running"
  | .failed => "failed"
  | .timed_out => "timed_out"
  | .successful => "successful"

/-- Python enum member lookup `DeploymentState.<name>`: returns the member
when the class declares one of that name, and `none` otherwise (in Python an
absent member raises `AttributeError`). -/
def DeploymentState.ofMemberName : String → Option DeploymentState
  | "pending" => some .pending
  | "running" => some .running
  | "failed" => some .failed
  | "timed_out" => some .timed_out
  | "successful" => some .successful
  | _ => none

/-- `DeploymentBuildState` from src/components/models/api_models.py. -/
inductive DeploymentBuildState
  | pending
  | running
  | failed
  | successful
  | unknown
  | skipped
deriving DecidableEq, Repr

/-- `DeploymentRunState` from src/components/models/api_models.py. -/
inductive DeploymentRunState
  | pending
  | failed
  | successful
  | skipped
  | unknown
deriving DecidableEq, Repr

/-- `DeploymentBuildInfo` from src/components/models/api_models.py
(fields `build_id`, `build_status`, `build_long_status`). -/
structure DeploymentBuildInfo where
  build_id : String
  build_status : DeploymentBuildState
  build_long_status : String := ""
deriving DecidableEq, Repr

/-- `DeploymentRunInfo` from src/components/models/api_models.py. -/
structure DeploymentRunInfo where
  run_status : DeploymentRunState
  run_long_status : String := ""
deriving DecidableEq, Repr

/-- `Deployment` from src/components/models/api_models.py; the `builds` and
`runs` dicts are embedded as association lists. -/
structure Deployment where
  deploy_id : String
  creation_time : String
  builds : List (String × DeploymentBuildInfo)
  runs : List (String × DeploymentRunInfo)
  status : DeploymentState := .pending
  long_status : String := ""
  force_build : Bool := false
  force_run : Bool := false
deriving DecidableEq, Repr

/-- The terminal deployment statuses among the members that
`DeploymentState` actually declares (the spec also lists `cancelled`,
which the enum in src does not have). -/
def DeploymentState.isTerminal : DeploymentState → Bool
  | .successful => true
  | .failed => true
  | .timed_out => true
  | _ => false

/-! ## HTTP-level error results -/

/-- An `HTTPException(status_code, detail)` raised by a handler. -/
structure HTTPExc where
  status_code : Nat
  detail : String
deriving DecidableEq, Repr

/-! ## C1: cancel_tool_deployment (src/components/api/tool_handlers.py 256-290) -/

/-- `cancel_tool_deployment`, embedded over the stored deployment (the
result of `storage.get_deployment`; `none` embeds `NotFoundInStorage`).
The second component of the result is the list of deployments persisted by
`storage.update_deployment` during the call.

The source reads the enum member `DeploymentState.cancelling`; the
embedding performs that member lookup through
`DeploymentState.ofMemberName`.  When the lookup fails (the enum in
src/components/models/api_models.py declares no such member, so Python
raises `AttributeError`), the generic `except Exception` arm of the
handler returns a 500 and nothing is persisted. -/
def cancel_tool_deployment (stored : Option Deployment) :
    Except HTTPExc Deployment × List Deployment :=
  match stored with
  | none => (.error ⟨404, "No deployment found"⟩, [])
  | some d =>
    if d.status ≠ DeploymentState.pending ∧ d.status ≠ DeploymentState.running then
      (.error ⟨409, "Deployment can not be cancelled, its state is " ++ d.status.value⟩, [])
    else
      match DeploymentState.ofMemberName "cancelling" with
      | some s =>
        let d' := { d with status := s }
        (.ok d', [d'])
      | none => (.error ⟨500, "Internal server error"⟩, [])

/-! ## Build status values of the builds API

The generated module `components/gen/toolforge_models.py` is not under
src/ (only its importers are). -/

/-- Modelled from the spec: the `BuildsBuildStatus` enum of the generated
builds-API models (`components/gen/toolforge_models.py`, absent from src/);
its members are exactly the six statuses named by the spec and referenced
by `_get_build_status` and `ToolforgeRuntime.get_build_info`. -/
inductive BuildsBuildStatus
  | BUILD_PENDING
  | BUILD_RUNNING
  | BUILD_SUCCESS
  | BUILD_FAILURE
  | BUILD_CANCELLED
  | BUILD_TIMEOUT
deriving DecidableEq, Repr

/-- Outcome of the HTTP fetch of a build's status performed by
`_get_build_status` / `get_build_info`: a parsed status, an `HTTPError`
with code 404, or any other error. -/
inductive BuildFetch
  | ok (s : BuildsBuildStatus)
  | http404
  | otherError
deriving DecidableEq, Repr

/-! ## C5: _get_build_status (src/components/deploy_task.py 283-328) -/

/-- The build-state mapping of `_get_build_status`: 404 responses map to
`failed`, other errors to `unknown`, and a fetched `BuildsBuildStatus` is
mapped by the if/elif chain of the source (`BUILD_RUNNING` to `running`,
`BUILD_SUCCESS` to `successful`, `BUILD_FAILURE`/`BUILD_CANCELLED`/
`BUILD_TIMEOUT` to `failed`, and anything else falls through to
`unknown`). -/
def _get_build_status (fetch : BuildFetch) : DeploymentBuildState :=
  match fetch with
  | .http404 => .failed
  | .otherError => .unknown
  | .ok s =>
    if s = BuildsBuildStatus.BUILD_RUNNING then .running
    else if s = BuildsBuildStatus.BUILD_SUCCESS then .successful
    else if s = BuildsBuildStatus.BUILD_FAILURE ∨ s = BuildsBuildStatus.BUILD_CANCELLED
        ∨ s = BuildsBuildStatus.BUILD_TIMEOUT then .failed
    else .unknown

/-- `ToolforgeRuntime.get_build_info` (src/components/runtime/toolforge.py
204-284), restricted to the fields of the `DeploymentBuildInfo` model in
src (`build_id`, `build_status`, `build_long_status`); the status mapping
is the same if/elif chain, and the 404 arm carries the
"maybe it was deleted?" long status. -/
def get_build_info (build : DeploymentBuildInfo) (fetch : BuildFetch) :
    DeploymentBuildInfo :=
  match fetch with
  | .http404 =>
    { build_id := build.build_id
      build_status := .failed
      build_long_status :=
        "build " ++ build.build_id ++ " not found, maybe it was deleted?" }
  | .otherError =>
    { build_id := build.build_id
      build_status := .unknown
      build_long_status := "Unknown error" }
  | .ok s =>
    { build_id := build.build_id
      build_status := _get_build_status (.ok s)
      build_long_status :=
        "You can see the logs with `toolforge build logs " ++ build.build_id ++ "`" }

/-! ## Settings (src/components/settings.py 11-28) -/

/-- `Settings` exactly as declared in src/components/settings.py: the class
declares `max_parallel_deployments` and has no field named
`max_active_deployments`.  Timedelta fields are embedded in seconds and the
URL field as a string. -/
structure Settings where
  log_level : String := "info"
  port : Nat := 8000
  address : String := "127.0.0.1"
  storage_type : String := "mock"
  runtime_type : String := "toolforge"
  toolforge_api_url : String := "https://api.svc.tools.eqiad1.wikimedia.cloud"
  verify_toolforge_api_cert : Bool := true
  «namespace» : String := "components-api"
  token_lifetime : Nat := 365 * 24 * 3600
  max_deployments_retained : Nat := 25
  build_timeout_seconds : Nat := 60 * 30
  max_parallel_deployments : Nat := 1
  deployment_timeout : Nat := 3600
deriving DecidableEq, Repr

/-- Python attribute lookup of an integer-valued attribute on a `Settings`
instance: exactly the int fields the class declares resolve; any other
name (in particular `max_active_deployments`) raises `AttributeError`,
embedded as `none`. -/
def Settings.getattrNat (s : Settings) (name : String) : Option Nat :=
  if name = "port" then some s.port
  else if name = "max_deployments_retained" then some s.max_deployments_retained
  else if name = "build_timeout_seconds" then some s.build_timeout_seconds
  else if name = "max_parallel_deployments" then some s.max_parallel_deployments
  else none

/-! ## C7: _check_active_deployments_limit (src/components/api/tool_handlers.py 319-346) -/

/-- `_check_active_deployments_limit`, embedded over the result of
`storage.list_deployments` (`.error` embeds `NotFoundInStorage`, which the
handler swallows).  When listing succeeds the handler filters the active
deployments and then evaluates `settings.max_active_deployments`; that
attribute lookup is performed through `Settings.getattrNat`, and its
failure (the `Settings` class declares no such field) escapes the
`try/except NotFoundInStorage` block, surfacing as a 500 from the
framework. -/
def _check_active_deployments_limit (settings : Settings)
    (listed : Except Unit (List Deployment)) : Except HTTPExc Unit :=
  match listed with
  | .error _ => .ok ()
  | .ok all_deployments =>
    let active_deployments := all_deployments.filter
      (fun d => d.status = DeploymentState.running ∨ d.status = DeploymentState.pending)
    match settings.getattrNat "max_active_deployments" with
    | none =>
      .error ⟨500, "AttributeError: Settings object has no attribute max_active_deployments"⟩
    | some limit =>
      if active_deployments.length ≥ limit then
        .error ⟨409, "There is already " ++ toString active_deployments.length
          ++ ", the limit is " ++ toString limit
          ++ ". Wait for some deployments to finish. You can also cancel some deployments"⟩
      else .ok ()

/-! ## Storage backends (src/components/storage/mock.py, kubernetes.py) -/

/-- The `_per_tool_deployments` dict of `MockStorage`
(src/components/storage/mock.py): tool name to dict of deployments keyed
by `deploy_id`. -/
structure MockStorageState where
  _per_tool_deployments : List (String × List (String × Deployment))
deriving DecidableEq, Repr

/-- `MockStorage.get_deployment` (src/components/storage/mock.py 34-40):
a plain nested dict lookup; a missing key raises `NotFoundInStorage`.  No
timeout sweep of any kind is run on the stored deployment. -/
def MockStorage.get_deployment (st : MockStorageState) (tool_name deployment_name : String) :
    Except String Deployment :=
  match dictGet? tool_name st._per_tool_deployments with
  | none => .error ("No deployments found for tool: " ++ tool_name)
  | some per_tool =>
    match dictGet? deployment_name per_tool with
    | none => .error ("No deployments found for tool: " ++ tool_name)
    | some d => .ok d

/-- `MockStorage.create_deployment` (src/components/storage/mock.py 42-46):
ensures the dict for the tool exists and then assigns
`[deployment.deploy_id] = deployment`, silently replacing any existing
deployment with the same id. -/
def MockStorage.create_deployment (st : MockStorageState) (tool_name : String)
    (deployment : Deployment) : MockStorageState :=
  let per_tool := (dictGet? tool_name st._per_tool_deployments).getD []
  { _per_tool_deployments :=
      dictSet tool_name (dictSet deployment.deploy_id deployment per_tool)
        st._per_tool_deployments }

/-- Errors surfaced by `KubernetesStorage` operations
(src/components/storage/exceptions.py is absent from src/; the two
exception classes are known from their importers). -/
inductive StorageErr
  | notFoundInStorage
  | storageError
deriving DecidableEq, Repr

/-- `KubernetesStorage.create_deployment` (src/components/storage/kubernetes.py
189-208), embedded over the stored objects of the tool namespace (`none` embeds a
missing namespace).  `create_namespaced_custom_object` refuses a duplicate
name with a 409 `ApiException` and leaves the store unchanged; the handler
maps a 404 to `NotFoundInStorage` and any other `ApiException` (including
the 409) to `StorageError`.  The second component of the result is the
content of the namespace after the call. -/
def KubernetesStorage.create_deployment (ns : Option (List (String × Deployment)))
    (deployment : Deployment) :
    Except StorageErr Unit × Option (List (String × Deployment)) :=
  match ns with
  | none => (.error .notFoundInStorage, none)
  | some objs =>
    if (dictGet? deployment.deploy_id objs).isSome then (.error .storageError, some objs)
    else (.ok (), some (objs ++ [(deployment.deploy_id, deployment)]))

/-! ## C9: ensure_token_or_auth (src/components/api/auth.py 31-72) -/

/-- The stored `DeployToken` (src/components/models/api_models.py): a UUID
embedded as its string form, and a creation date in seconds. -/
structure DeployToken where
  token : String
  creation_date : Nat
deriving DecidableEq, Repr

/-- Python truthiness of an optional string parameter (absent or empty is
falsy). -/
def strTruthy : Option String → Bool
  | none => false
  | some s => s ≠ ""

/-- `ensure_token_or_auth`: authorize on the `x-toolforge-tool` header
alone when it is truthy; otherwise require a `token` query parameter that
matches the stored deploy token and is not expired.  `stored_token` is the
result of `storage.get_deploy_token` (`none` embeds `NotFoundInStorage`);
`now` is the current time in seconds. -/
def ensure_token_or_auth (api_key_header token : Option String)
    (stored_token : Option DeployToken) (settings : Settings) (now : Nat) :
    Except HTTPExc Bool :=
  if ¬ strTruthy api_key_header ∧ ¬ strTruthy token then
    .error ⟨401, "The x-toolforge-tool header or a token are required"⟩
  else if strTruthy api_key_header then
    .ok true
  else
    match stored_token with
    | none =>
      .error ⟨401, "The token passed " ++ token.getD "" ++ " does not match the stored token"⟩
    | some st =>
      if st.token ≠ token.getD "" then
        .error ⟨401, "The token passed " ++ token.getD "" ++ " does not match the stored token"⟩
      else if st.creation_date + settings.token_lifetime < now then
        .error ⟨401, "The token passed " ++ token.getD "" ++ " has expired, please create a new one"⟩
      else
        .ok true

/-! ## C10: list_tool_deployments / get_latest_deployment
(src/components/api/tool_handlers.py 293-316) -/

/-- A concrete deployment record, used for evaluating the handlers at
specific inputs. -/
def mkDep (i ct : String) (st : DeploymentState) : Deployment :=
  { deploy_id := i, creation_time := ct, builds := [], runs := [], status := st }

/-- Value of a decimal digit character, `none` for a non-digit. -/
def digitVal (c : Char) : Option Nat :=
  if c.isDigit then some (c.toNat - 48) else none

/-- Parse a fixed-width run of decimal digits. -/
def parseDigits (cs : List Char) : Option Nat :=
  cs.foldl
    (fun acc c =>
      match acc, digitVal c with
      | some a, some d => some (a * 10 + d)
      | _, _ => none)
    (some 0)

/-- Day count of a month, with leap years (the calendar check performed by
`datetime.strptime` when it builds the date). -/
def daysInMonth (y mo : Nat) : Nat :=
  if mo = 2 then
    if y % 4 = 0 ∧ (y % 100 ≠ 0 ∨ y % 400 = 0) then 29 else 28
  else if mo = 4 ∨ mo = 6 ∨ mo = 9 ∨ mo = 11 then 30
  else 31

/-- `datetime.strptime(s, "%Y%m%d-%H%M%S")`, embedded as a total parse to a
single chronologically ordered key: the positional base-100 numeral
`((((y*100+mo)*100+d)*100+h)*100+mi)*100+sec`.  `none` embeds the
`ValueError` raised on a malformed timestamp.  Since every validated
component is below 100, two timestamps compare on this key exactly as the
corresponding `datetime` values compare. -/
def parseCreationTime (s : String) : Option Nat :=
  match s.toList with
  | [y1, y2, y3, y4, mo1, mo2, dd1, dd2, dash, h1, h2, mi1, mi2, s1, s2] =>
    if dash = '-' then
      match parseDigits [y1, y2, y3, y4], parseDigits [mo1, mo2], parseDigits [dd1, dd2],
          parseDigits [h1, h2], parseDigits [mi1, mi2], parseDigits [s1, s2] with
      | some y, some mo, some d, some h, some mi, some sec =>
        if 1 ≤ mo ∧ mo ≤ 12 ∧ 1 ≤ d ∧ d ≤ daysInMonth y mo ∧ h ≤ 23 ∧ mi ≤ 59 ∧ sec ≤ 59 then
          some (((((y * 100 + mo) * 100 + d) * 100 + h) * 100 + mi) * 100 + sec)
        else none
      | _, _, _, _, _, _ => none
    else none
  | _ => none

/-- Pair every deployment with its parsed `creation_time` key; `none` when
any timestamp fails to parse (the `ValueError` escaping `sorted`). -/
def keyedByCreationTime : List Deployment → Option (List (Nat × Deployment))
  | [] => some []
  | d :: rest =>
    match parseCreationTime d.creation_time, keyedByCreationTime rest with
    | some k, some ks => some ((k, d) :: ks)
    | _, _ => none

/-- Insert into an ascending list, after every element with a key less than
or equal to the inserted key (so repeated insertion is stable, like
the `sorted` builtin of Python). -/
def insertAsc (x : Nat × Deployment) : List (Nat × Deployment) → List (Nat × Deployment)
  | [] => [x]
  | y :: ys => if y.1 ≤ x.1 then y :: insertAsc x ys else x :: y :: ys

/-- The `sorted(..., key=...)` builtin of Python: stable ascending sort by the key. -/
def pySortedByKey (l : List (Nat × Deployment)) : List (Nat × Deployment) :=
  l.foldl (fun acc x => insertAsc x acc) []

/-- `list_tool_deployments`: lists the deployments of a tool, mapping both a
`NotFoundInStorage` from storage and an empty listing to a 404. -/
def list_tool_deployments (tool_name : String) (listed : Except Unit (List Deployment)) :
    Except HTTPExc (List Deployment) :=
  match listed with
  | .error _ => .error ⟨404, "No deployments found for tool: " ++ tool_name⟩
  | .ok deployments =>
    if deployments.isEmpty then
      .error ⟨404, "No deployments found for tool: " ++ tool_name⟩
    else .ok deployments

/-- `get_latest_deployment`: list (404 on empty), sort by
`datetime.strptime(d.creation_time, "%Y%m%d-%H%M%S")` ascending, and
return the last element.  A timestamp that fails to parse raises out of
the handler (surfacing as a 500 from the framework). -/
def get_latest_deployment (tool_name : String) (listed : Except Unit (List Deployment)) :
    Except HTTPExc Deployment :=
  match list_tool_deployments tool_name listed with
  | .error e => .error e
  | .ok deployments =>
    match keyedByCreationTime deployments with
    | none => .error ⟨500, "Internal Server Error"⟩
    | some keyed =>
      match (pySortedByKey keyed).getLast? with
      | some kd => .ok kd.2
      | none => .error ⟨500, "Internal Server Error"⟩

/-! ## Deployment engine write trace
(src/components/deploy_task.py: do_deploy, _do_run,
set_deployment_as_failed_on_error) -/

/-- Outcome of `run_continuous_jobs` for one component: the returned
message, or the message computed from a raised exception. -/
inductive RunOutcome
  | ok (msg : String)
  | err (msg : String)
deriving DecidableEq, Repr

/-- One component as seen by `_do_run`: its name, its `component_type`
discriminator, and the outcome of its `run_continuous_jobs` call. -/
structure CompSpec where
  name : String
  component_type : String
  outcome : RunOutcome
deriving DecidableEq, Repr

/-- The writes `_do_run` persists through `_update_deployment`, in order,
together with the message of the `RunFailed` it raises (if any).  Per
component: persist `runs[name] = pending`; a non-continuous component is
marked `skipped` and persisted; otherwise on error persist
`runs[name] = failed` with the message and raise `RunFailed`; on success
persist `status = successful`, `long_status = "Finished at <now>"` and
`runs[name] = successful` in a single write. -/
def _do_run_trace (nowStr : String) : Deployment → List CompSpec →
    List Deployment × Option String
  | _, [] => ([], none)
  | d, c :: rest =>
    let d1 := { d with runs := dictSet c.name ⟨.pending, ""⟩ d.runs }
    if c.component_type ≠ "continuous" then
      let d2 := { d1 with runs := dictSet c.name ⟨.skipped, ""⟩ d1.runs }
      let rec_result := _do_run_trace nowStr d2 rest
      (d1 :: d2 :: rec_result.1, rec_result.2)
    else
      match c.outcome with
      | .err msg =>
        let d2 := { d1 with runs := dictSet c.name ⟨.failed, msg⟩ d1.runs }
        ([d1, d2], some ("Failed run for component " ++ c.name ++ ": " ++ msg))
      | .ok msg =>
        let d2 := { d1 with
          status := .successful
          long_status := "Finished at " ++ nowStr
          runs := dictSet c.name ⟨.successful, msg⟩ d1.runs }
        let rec_result := _do_run_trace nowStr d2 rest
        (d1 :: d2 :: rec_result.1, rec_result.2)

/-- The single write the `set_deployment_as_failed_on_error` decorator
persists when the wrapped `do_deploy` raises: `status = failed`,
`long_status = "Got exception: <e>\n<traceback>"`, and every run entry
still `pending` rewritten to `skipped` with
"Skipped due to previous failure". -/
def set_deployment_as_failed_write (d : Deployment) (errMsg tb : String) : Deployment :=
  { d with
    status := .failed
    long_status := "Got exception: " ++ errMsg ++ "\n" ++ tb
    runs := d.runs.map (fun nr =>
      if nr.2.run_status = DeploymentRunState.pending then
        (nr.1, ⟨.skipped, "Skipped due to previous failure"⟩)
      else nr) }

/-- The build phase (`_do_build`) as seen by the write trace: the
successive `builds` maps persisted through `update_build_info_func`
(each such write leaves `status` untouched), and its outcome — either the
final `builds` map, or the message of the raised `BuildFailed` together
with the `builds` map at the moment of the raise. -/
structure BuildPhase where
  writes : List (List (String × DeploymentBuildInfo))
  outcome : Except (String × List (String × DeploymentBuildInfo))
    (List (String × DeploymentBuildInfo))

/-- The full sequence of deployment records the engine task persists, in
order, for one `do_deploy` run: the enter write (`status = running`,
`long_status = "Started at <now>"`), the build-phase writes, the run-phase
writes, and — when the build phase or a run raises — the final write of
the `set_deployment_as_failed_on_error` decorator. -/
def do_deploy_trace (d0 : Deployment) (bp : BuildPhase) (comps : List CompSpec)
    (nowStr tb : String) : List Deployment :=
  let d1 := { d0 with status := DeploymentState.running,
                      long_status := "Started at " ++ nowStr }
  let buildTrace := bp.writes.map (fun b => { d1 with builds := b })
  match bp.outcome with
  | .error e =>
    (d1 :: buildTrace) ++ [set_deployment_as_failed_write { d1 with builds := e.2 } e.1 tb]
  | .ok bFinal =>
    let d2 := { d1 with builds := bFinal }
    let run_result := _do_run_trace nowStr d2 comps
    match run_result.2 with
    | none => (d1 :: buildTrace) ++ run_result.1
    | some msg =>
      (d1 :: buildTrace) ++ run_result.1 ++
        [set_deployment_as_failed_write ((run_result.1.getLast?).getD d2) msg tb]

/-! ## C6: _wait_for_builds (src/components/deploy_task.py 331-393)

Time model: `_get_build_status` calls are instantaneous and each loop
iteration ends with the 2-second sleep, so the wall-clock seconds elapsed
when the loop condition is evaluated for the (t+1)-th time is `2*t`. -/

/-- Whether a build has finished (reached `successful` or `failed`) in the
current `builds` map — the condition under which `_wait_for_builds` drops
it from `pending_builds`. -/
def finishedBuild (builds : List (String × DeploymentBuildInfo)) (n : String) : Bool :=
  match dictGet? n builds with
  | some b => b.build_status = DeploymentBuildState.successful ∨
      b.build_status = DeploymentBuildState.failed
  | none => false

/-- One pass of the poll loop body over the pending component names:
the entry of each pending build is rewritten with its freshly fetched status
(`poll t n` abstracts the `_get_build_status` result for component `n` at
tick `t`), keeping its build id. -/
def pollPass (poll : Nat → String → DeploymentBuildState) (t : Nat)
    (builds : List (String × DeploymentBuildInfo)) :
    List String → List (String × DeploymentBuildInfo)
  | [] => builds
  | n :: rest =>
    let bid := ((dictGet? n builds).map (fun b => b.build_id)).getD ""
    pollPass poll t (dictSet n ⟨bid, poll t n, ""⟩ builds) rest

/-- The state in which the `while` loop of `_wait_for_builds` exits: the
final `builds` map, the names still in `pending_builds`, and the number of
2-second ticks slept. -/
structure WaitExit where
  builds : List (String × DeploymentBuildInfo)
  pending : List String
  ticks : Nat
deriving DecidableEq, Repr

/-- The `while pending_builds and elapsed < build_timeout_seconds` loop of
`_wait_for_builds`: at tick `t` the elapsed wall-clock time is `2*t`; one
iteration polls every pending build, drops the finished ones, and sleeps
one tick. -/
def _wait_loop (poll : Nat → String → DeploymentBuildState) (T : Nat)
    (builds : List (String × DeploymentBuildInfo)) (pending : List String)
    (t : Nat) : WaitExit :=
  if pending ≠ [] ∧ 2 * t < T then
    _wait_loop poll T (pollPass poll t builds pending)
      (pending.filter (fun n => ¬ finishedBuild (pollPass poll t builds pending) n)) (t + 1)
  else ⟨builds, pending, t⟩
termination_by T - 2 * t
decreasing_by omega

/-- The `" ".join` builtin of Python. -/
def joinSpace : List String → String
  | [] => ""
  | [x] => x
  | x :: rest => x ++ " " ++ joinSpace rest

/-- Result of `_wait_for_builds`: the raised `BuildFailed` message (or
`.ok`), plus the loop exit state. -/
structure WaitResult where
  result : Except String Unit
  builds : List (String × DeploymentBuildInfo)
  pending : List String
  ticks : Nat
deriving Repr

/-- The components whose builds enter `pending_builds` at the top of
`_wait_for_builds`: those whose build status is `pending` or `running`. -/
def watchedPending (builds0 : List (String × DeploymentBuildInfo)) : List String :=
  (builds0.filter (fun nb =>
    nb.2.build_status = DeploymentBuildState.pending ∨
    nb.2.build_status = DeploymentBuildState.running)).map (fun nb => nb.1)

/-- `_wait_for_builds`: collect the builds currently `pending` or
`running` into `pending_builds`, run the poll loop, then raise `BuildFailed`
naming the still-pending components on timeout, or naming the failed builds
when any build ended `failed`. -/
def _wait_for_builds (poll : Nat → String → DeploymentBuildState) (T : Nat)
    (builds0 : List (String × DeploymentBuildInfo)) : WaitResult :=
  let ex := _wait_loop poll T builds0 (watchedPending builds0) 0
  { result :=
      if ex.pending ≠ [] then
        .error ("Some builds took too long to finish: " ++ joinSpace ex.pending)
      else
        let failed_builds := (ex.builds.filter (fun nb =>
          nb.2.build_status = DeploymentBuildState.failed)).map
            (fun nb => nb.1 ++ "(id:" ++ nb.2.build_id ++ ")")
        if failed_builds ≠ [] then
          .error ("Some builds failed, you can check the build logs for more info: "
            ++ joinSpace failed_builds)
        else .ok ()
    builds := ex.builds
    pending := ex.pending
    ticks := ex.ticks }

/-! ## Helper lemmas -/

theorem dictGet?_dictSet_same {α : Type} (k : String) (v : α) (l : List (String × α)) :
    dictGet? k (dictSet k v l) = some v := by
  induction l with
  | nil => simp [dictGet?, dictSet]
  | cons hd tl ih =>
    obtain ⟨k', v'⟩ := hd
    by_cases h : k' = k <;> simp [dictGet?, dictSet, h, ih]

theorem dictGet?_dictSet_other {α : Type} (k m : String) (v : α) (l : List (String × α))
    (hne : m ≠ k) : dictGet? m (dictSet k v l) = dictGet? m l := by
  induction l with
  | nil => simp [dictGet?, dictSet, Ne.symm hne]
  | cons hd tl ih =>
    obtain ⟨k', v'⟩ := hd
    by_cases h : k' = k
    · subst h
      simp [dictGet?, dictSet, Ne.symm hne]
    · by_cases h2 : k' = m
      · subst h2
        simp [dictGet?, dictSet, h]
      · simp [dictGet?, dictSet, h, h2, ih]

theorem dictGet?_cons {α : Type} (k n : String) (v : α) (l : List (String × α)) :
    dictGet? n ((k, v) :: l) = if k = n then some v else dictGet? n l := rfl

theorem ofMemberName_cancelling : DeploymentState.ofMemberName "cancelling" = none := by
  decide

theorem ofMemberName_cancelled : DeploymentState.ofMemberName "cancelled" = none := by
  decide

/-! ## C1 -/

/-- C1: the claim says cancel on a `pending`/`running` deployment persists
the transient state `cancelling`, that any other prior state yields a 409
conflict with storage unchanged, and that the status domain includes
`cancelling` and `cancelled`.  On the code: the 409 arm holds, but the
`DeploymentState` enum declares neither `cancelling` nor `cancelled`, so
for a `pending` or `running` deployment the handler crashes on the member
lookup (`AttributeError`, caught by the generic arm as a 500) and persists
nothing. -/
theorem C1_cancel_crashes_on_missing_cancelling_member :
    (∀ d : Deployment, d.status = DeploymentState.pending ∨ d.status = DeploymentState.running →
      cancel_tool_deployment (some d) = (.error ⟨500, "Internal server error"⟩, [])) ∧
    (∀ d : Deployment, d.status ≠ DeploymentState.pending → d.status ≠ DeploymentState.running →
      cancel_tool_deployment (some d) =
        (.error ⟨409, "Deployment can not be cancelled, its state is " ++ d.status.value⟩, [])) ∧
    DeploymentState.ofMemberName "cancelling" = none ∧
    DeploymentState.ofMemberName "cancelled" = none := by
  refine ⟨?_, ?_, ofMemberName_cancelling, ofMemberName_cancelled⟩
  · intro d h
    rcases h with h | h <;>
      simp [cancel_tool_deployment, h, ofMemberName_cancelling]
  · intro d h1 h2
    simp [cancel_tool_deployment, h1, h2]

/-- Witness for C1 at concrete deployments: a pending deployment is met
with a 500 and no write; a successful one with a 409 and no write. -/
theorem C1_witness :
    cancel_tool_deployment (some (mkDep "id1" "20250101-000000" DeploymentState.pending)) =
      (.error ⟨500, "Internal server error"⟩, []) ∧
    cancel_tool_deployment (some (mkDep "id1" "20250101-000000" DeploymentState.successful)) =
      (.error ⟨409, "Deployment can not be cancelled, its state is successful"⟩, []) := by
  constructor
  · exact C1_cancel_crashes_on_missing_cancelling_member.1 _ (Or.inl rfl)
  · exact C1_cancel_crashes_on_missing_cancelling_member.2.1 _ (by decide) (by decide)

/-! ## C3 -/

/-- C3: the claim says every deployment read first rewrites stale
non-terminal deployments to `timed_out` (timeout sweep).  On the code
there is no sweep: `MockStorage.get_deployment` (and likewise the
Kubernetes backend) returns the stored record unchanged, so a deployment
created long before `deployment_timeout` ago is still returned as
`pending`, a non-terminal state.  (`list_deployments` and
`update_deployment`, the other operations the claim quantifies over, are
declared on the abstract `Storage` base class but implemented by neither
backend in src.) -/
theorem C3_get_deployment_returns_stale_pending_unchanged :
    MockStorage.get_deployment
      ⟨[("my-tool", [("old", mkDep "old" "20200101-000000" DeploymentState.pending)])]⟩
      "my-tool" "old" = .ok (mkDep "old" "20200101-000000" DeploymentState.pending) ∧
    (mkDep "old" "20200101-000000" DeploymentState.pending).status = DeploymentState.pending ∧
    DeploymentState.isTerminal DeploymentState.pending = false := by
  refine ⟨?_, rfl, rfl⟩
  rfl

/-! ## C5 -/

/-- C5 counterexample: the claim says `BUILD_PENDING` maps to `running`;
in `_get_build_status` it falls through the if/elif chain to `unknown`. -/
theorem C5_counterexample_pending_maps_to_unknown :
    _get_build_status (.ok BuildsBuildStatus.BUILD_PENDING) ≠ DeploymentBuildState.running ∧
    _get_build_status (.ok BuildsBuildStatus.BUILD_PENDING) = DeploymentBuildState.unknown := by
  decide

/-- C5 (amended): the fetched build status is mapped
`BUILD_RUNNING` to `running`, `BUILD_SUCCESS` to `successful`,
`BUILD_FAILURE`/`BUILD_CANCELLED`/`BUILD_TIMEOUT` to `failed`, an HTTP 404
to `failed` (in `get_build_info` with a long status suggesting the build
may have been deleted), and any other error — as well as any other fetched
status value, including `BUILD_PENDING` — to `unknown`.
`ToolforgeRuntime.get_build_info` applies the same status mapping. -/
theorem C5_amended_build_status_mapping :
    _get_build_status (.ok BuildsBuildStatus.BUILD_RUNNING) = DeploymentBuildState.running ∧
    _get_build_status (.ok BuildsBuildStatus.BUILD_SUCCESS) = DeploymentBuildState.successful ∧
    _get_build_status (.ok BuildsBuildStatus.BUILD_FAILURE) = DeploymentBuildState.failed ∧
    _get_build_status (.ok BuildsBuildStatus.BUILD_CANCELLED) = DeploymentBuildState.failed ∧
    _get_build_status (.ok BuildsBuildStatus.BUILD_TIMEOUT) = DeploymentBuildState.failed ∧
    _get_build_status (.ok BuildsBuildStatus.BUILD_PENDING) = DeploymentBuildState.unknown ∧
    _get_build_status .http404 = DeploymentBuildState.failed ∧
    _get_build_status .otherError = DeploymentBuildState.unknown ∧
    (∀ (b : DeploymentBuildInfo) (f : BuildFetch),
      (get_build_info b f).build_status = _get_build_status f) ∧
    (∀ b : DeploymentBuildInfo, (get_build_info b .http404).build_long_status =
      "build " ++ b.build_id ++ " not found, maybe it was deleted?") := by
  refine ⟨rfl, rfl, rfl, rfl, rfl, rfl, rfl, rfl, ?_, ?_⟩
  · intro b f
    cases f <;> rfl
  · intro b
    rfl

/-! ## C7 -/

/-- C7: the claim says admission compares the active-deployment count
against the configured `max_active_deployments` and rejects with a 409 at
the limit.  On the code: `Settings` declares `max_parallel_deployments`
(default 1) and no field named `max_active_deployments`, while
`_check_active_deployments_limit` reads
`settings.max_active_deployments`; whenever listing succeeds the check
therefore raises `AttributeError` (escaping its
`try/except NotFoundInStorage`, a 500 at the framework level) instead of
admitting or rejecting, for every settings value and every deployment
list.  Only the `NotFoundInStorage` path (no deployment records at all)
lets creation proceed. -/
theorem C7_admission_check_raises_attribute_error :
    (({} : Settings).getattrNat "max_active_deployments" = none) ∧
    (({} : Settings).getattrNat "max_parallel_deployments" = some 1) ∧
    (∀ (s : Settings) (l : List Deployment),
      _check_active_deployments_limit s (.ok l) =
        .error ⟨500, "AttributeError: Settings object has no attribute max_active_deployments"⟩) ∧
    (∀ s : Settings, _check_active_deployments_limit s (.error ()) = .ok ()) := by
  refine ⟨rfl, rfl, ?_, ?_⟩
  · intro s l
    rfl
  · intro s
    rfl

/-! ## C8 -/

/-- C8 counterexample: the claim says `CreateDeployment` fails on an
existing `deploy_id` in both backends, leaving the stored record
unchanged.  On the mock backend a second create with the same id silently
replaces the first record and signals no failure. -/
theorem C8_counterexample_mock_create_overwrites :
    MockStorage.create_deployment
        (MockStorage.create_deployment ⟨[]⟩ "my-tool"
          (mkDep "id1" "20250101-000000" DeploymentState.pending))
        "my-tool" (mkDep "id1" "20250101-000000" DeploymentState.failed) =
      ⟨[("my-tool", [("id1", mkDep "id1" "20250101-000000" DeploymentState.failed)])]⟩ ∧
    mkDep "id1" "20250101-000000" DeploymentState.failed ≠
      mkDep "id1" "20250101-000000" DeploymentState.pending := by
  constructor
  · rfl
  · decide

/-- C8 (amended): only the Kubernetes backend rejects a duplicate
`deploy_id` (the 409 from the CRD create surfaces as a `StorageError`)
and leaves the stored objects unchanged, and it stores the new deployment
when the id is free; the mock backend always completes the create,
overwriting any record with the same id (a subsequent read returns the
new record). -/
theorem C8_amended_duplicate_create :
    (∀ (objs : List (String × Deployment)) (d : Deployment),
      (dictGet? d.deploy_id objs).isSome →
        KubernetesStorage.create_deployment (some objs) d = (.error .storageError, some objs)) ∧
    (∀ (objs : List (String × Deployment)) (d : Deployment),
      dictGet? d.deploy_id objs = none →
        KubernetesStorage.create_deployment (some objs) d =
          (.ok (), some (objs ++ [(d.deploy_id, d)]))) ∧
    (∀ (st : MockStorageState) (tool : String) (d : Deployment),
      MockStorage.get_deployment (MockStorage.create_deployment st tool d) tool d.deploy_id =
        .ok d) := by
  refine ⟨?_, ?_, ?_⟩
  · intro objs d h
    simp [KubernetesStorage.create_deployment, h]
  · intro objs d h
    simp [KubernetesStorage.create_deployment, h]
  · intro st tool d
    simp [MockStorage.create_deployment, MockStorage.get_deployment,
      dictGet?_dictSet_same]

/-- Witness for C8 (amended) at a concrete duplicate create against the
Kubernetes backend: the create errors and the namespace content is
unchanged. -/
theorem C8_amended_witness :
    KubernetesStorage.create_deployment
        (some [("id1", mkDep "id1" "20250101-000000" DeploymentState.pending)])
        (mkDep "id1" "20250101-000000" DeploymentState.failed) =
      (.error .storageError, some [("id1", mkDep "id1" "20250101-000000" DeploymentState.pending)]) :=
  C8_amended_duplicate_create.1 _ _ (by rfl)

/-! ## C9 -/

/-- C9: whenever the `x-toolforge-tool` header carries a (non-empty) value,
`ensure_token_or_auth` authorizes the request without consulting the token
parameter or the token store: the result is `.ok true` for every token
value, every stored token (present, absent, matching or expired), every
settings value and every clock, and two runs that differ only in those
inputs produce identical results. -/
theorem C9_header_authorizes_independent_of_token :
    ∀ (v : String), v ≠ "" →
    ∀ (token₁ token₂ : Option String) (st₁ st₂ : Option DeployToken)
      (s₁ s₂ : Settings) (n₁ n₂ : Nat),
      ensure_token_or_auth (some v) token₁ st₁ s₁ n₁ = .ok true ∧
      ensure_token_or_auth (some v) token₁ st₁ s₁ n₁ =
        ensure_token_or_auth (some v) token₂ st₂ s₂ n₂ := by
  intro v hv token₁ token₂ st₁ st₂ s₁ s₂ n₁ n₂
  have ht : strTruthy (some v) = true := by
    simp [strTruthy, hv]
  constructor
  · simp [ensure_token_or_auth, ht]
  · simp [ensure_token_or_auth, ht]

/-- Witness for C9: with the header set, a wrong token against an expired
stored token is still authorized. -/
theorem C9_witness :
    ensure_token_or_auth (some "my-tool") (some "wrong-token")
      (some ⟨"stored-token", 0⟩) {} 99999999999 = .ok true :=
  (C9_header_authorizes_independent_of_token "my-tool" (by decide)
    (some "wrong-token") none (some ⟨"stored-token", 0⟩) none {} {} 99999999999 0).1

/-! ## C10 helper lemmas -/

theorem keyedByCreationTime_props :
    ∀ (l : List Deployment) (keyed : List (Nat × Deployment)),
      keyedByCreationTime l = some keyed →
      (∀ p ∈ keyed, parseCreationTime p.2.creation_time = some p.1 ∧ p.2 ∈ l) ∧
      (∀ d ∈ l, ∀ k, parseCreationTime d.creation_time = some k → (k, d) ∈ keyed) := by
  intro l
  induction l with
  | nil =>
    intro keyed h
    simp [keyedByCreationTime] at h
    subst h
    simp
  | cons d0 rest ih =>
    intro keyed h
    simp only [keyedByCreationTime] at h
    cases hp : parseCreationTime d0.creation_time with
    | none => rw [hp] at h; exact absurd h (by simp)
    | some k0 =>
      rw [hp] at h
      cases hr : keyedByCreationTime rest with
      | none => rw [hr] at h; exact absurd h (by simp)
      | some ks =>
        rw [hr] at h
        simp only [Option.some.injEq] at h
        subst h
        obtain ⟨ih1, ih2⟩ := ih ks hr
        constructor
        · intro p hp2
          rcases List.mem_cons.mp hp2 with h1 | h1
          · subst h1
            exact ⟨hp, List.mem_cons_self _ _⟩
          · obtain ⟨ha, hb⟩ := ih1 p h1
            exact ⟨ha, List.mem_cons_of_mem _ hb⟩
        · intro d hd k hk
          rcases List.mem_cons.mp hd with h1 | h1
          · subst h1
            rw [hp] at hk
            simp only [Option.some.injEq] at hk
            subst hk
            exact List.mem_cons_self _ _
          · exact List.mem_cons_of_mem _ (ih2 d h1 k hk)

theorem mem_insertAsc (x y : Nat × Deployment) (l : List (Nat × Deployment)) :
    y ∈ insertAsc x l ↔ y = x ∨ y ∈ l := by
  induction l with
  | nil => simp [insertAsc]
  | cons a t ih =>
    by_cases h : a.1 ≤ x.1
    · simp only [insertAsc, if_pos h, List.mem_cons, ih]
      tauto
    · simp [insertAsc, if_neg h]

theorem sorted_insertAsc (x : Nat × Deployment) (l : List (Nat × Deployment))
    (hs : l.Pairwise (fun a b => a.1 ≤ b.1)) :
    (insertAsc x l).Pairwise (fun a b => a.1 ≤ b.1) := by
  induction l with
  | nil => simp [insertAsc]
  | cons a t ih =>
    rw [List.pairwise_cons] at hs
    obtain ⟨ha, ht⟩ := hs
    by_cases h : a.1 ≤ x.1
    · rw [insertAsc, if_pos h, List.pairwise_cons]
      refine ⟨?_, ih ht⟩
      intro y hy
      rcases (mem_insertAsc x y t).mp hy with h1 | h1
      · subst h1; exact h
      · exact ha y h1
    · rw [insertAsc, if_neg h, List.pairwise_cons]
      have hxa : x.1 ≤ a.1 := by omega
      refine ⟨?_, by rw [List.pairwise_cons]; exact ⟨ha, ht⟩⟩
      intro y hy
      rcases List.mem_cons.mp hy with h1 | h1
      · subst h1; exact hxa
      · exact le_trans hxa (ha y h1)

theorem mem_pySortedFold :
    ∀ (l acc : List (Nat × Deployment)) (y : Nat × Deployment),
      y ∈ l.foldl (fun a x => insertAsc x a) acc ↔ y ∈ l ∨ y ∈ acc := by
  intro l
  induction l with
  | nil => simp
  | cons x xs ih =>
    intro acc y
    simp only [List.foldl_cons]
    rw [ih (insertAsc x acc) y, mem_insertAsc]
    simp only [List.mem_cons]
    tauto

theorem sorted_pySortedFold :
    ∀ (l acc : List (Nat × Deployment)),
      acc.Pairwise (fun a b => a.1 ≤ b.1) →
      (l.foldl (fun a x => insertAsc x a) acc).Pairwise (fun a b => a.1 ≤ b.1) := by
  intro l
  induction l with
  | nil => intro acc h; exact h
  | cons x xs ih =>
    intro acc h
    simp only [List.foldl_cons]
    exact ih _ (sorted_insertAsc x acc h)

theorem mem_of_getLast?_eq {α : Type} :
    ∀ (l : List α) (m : α), l.getLast? = some m → m ∈ l := by
  intro l
  induction l with
  | nil => intro m h; simp at h
  | cons a t ih =>
    intro m h
    cases t with
    | nil =>
      simp [List.getLast?] at h
      subst h
      exact List.mem_cons_self _ _
    | cons b t2 =>
      rw [List.getLast?_cons_cons] at h
      exact List.mem_cons_of_mem _ (ih m h)

theorem sorted_getLast?_max :
    ∀ (l : List (Nat × Deployment)), l.Pairwise (fun a b => a.1 ≤ b.1) →
      ∀ m, l.getLast? = some m → ∀ y ∈ l, y.1 ≤ m.1 := by
  intro l
  induction l with
  | nil => intro _ m h; simp at h
  | cons a t ih =>
    intro hs m h y hy
    rw [List.pairwise_cons] at hs
    obtain ⟨ha, ht⟩ := hs
    cases t with
    | nil =>
      simp [List.getLast?] at h
      subst h
      rcases List.mem_cons.mp hy with h1 | h1
      · subst h1; exact le_refl _
      · simp at h1
    | cons b t2 =>
      rw [List.getLast?_cons_cons] at h
      rcases List.mem_cons.mp hy with h1 | h1
      · subst h1
        have hb : b.1 ≤ m.1 := ih ht m h b (List.mem_cons_self _ _)
        exact le_trans (ha b (List.mem_cons_self _ _)) hb
      · exact ih ht m h y h1

/-! ## C10 -/

/-- C10: the list handler maps an empty listing (like a missing one) to a
404 and never returns an empty list; `get_latest_deployment` therefore
also 404s on an empty listing rather than failing on an empty sequence,
and on a non-empty listing it returns a deployment from the list whose
parsed (`strptime "%Y%m%d-%H%M%S"`) creation time is maximal. -/
theorem C10_empty_listing_404_and_latest_is_maximal :
    (∀ tool : String, list_tool_deployments tool (.ok []) =
      .error ⟨404, "No deployments found for tool: " ++ tool⟩) ∧
    (∀ tool : String, get_latest_deployment tool (.ok []) =
      .error ⟨404, "No deployments found for tool: " ++ tool⟩) ∧
    (∀ (tool : String) (res : Except Unit (List Deployment)) (l : List Deployment),
      list_tool_deployments tool res = .ok l → l ≠ []) ∧
    (∀ (tool : String) (ds : List Deployment) (d : Deployment),
      get_latest_deployment tool (.ok ds) = .ok d →
      d ∈ ds ∧ ∀ d' ∈ ds, ∀ k k' : Nat,
        parseCreationTime d.creation_time = some k →
        parseCreationTime d'.creation_time = some k' → k' ≤ k) := by
  refine ⟨fun tool => rfl, fun tool => rfl, ?_, ?_⟩
  · intro tool res l h
    cases res with
    | error e => simp [list_tool_deployments] at h
    | ok ds =>
      by_cases he : ds.isEmpty
      · simp [list_tool_deployments, he] at h
      · simp only [list_tool_deployments, if_neg he] at h
        simp only [Except.ok.injEq] at h
        subst h
        simpa [List.isEmpty_iff] using he
  · intro tool ds d h
    unfold get_latest_deployment at h
    split at h
    · simp at h
    · rename_i deployments heq
      have hds : deployments = ds := by
        simp only [list_tool_deployments] at heq
        by_cases he : ds.isEmpty
        · rw [if_pos he] at heq
          simp at heq
        · rw [if_neg he] at heq
          simpa using heq.symm
      rw [← hds]
      split at h
      · simp at h
      · rename_i keyed hk
        split at h
        · rename_i kd hl
          simp only [Except.ok.injEq] at h
          subst h
          obtain ⟨hk1, hk2⟩ := keyedByCreationTime_props deployments keyed hk
          have hkd_mem : kd ∈ pySortedByKey keyed := mem_of_getLast?_eq _ _ hl
          have hkd_keyed : kd ∈ keyed := by
            have := (mem_pySortedFold keyed [] kd).mp hkd_mem
            simpa using this
          obtain ⟨hkd_parse, hkd_in⟩ := hk1 kd hkd_keyed
          refine ⟨hkd_in, ?_⟩
          intro d' hd' k k' hpk hpk'
          have hsorted := sorted_pySortedFold keyed [] (by simp)
          have hmem' : (k', d') ∈ pySortedByKey keyed :=
            (mem_pySortedFold keyed [] _).mpr (Or.inl (hk2 d' hd' k' hpk'))
          have hmax := sorted_getLast?_max (pySortedByKey keyed) hsorted kd hl (k', d') hmem'
          have hkk : k = kd.1 := by
            rw [hpk] at hkd_parse
            exact Option.some.inj hkd_parse
          simpa [hkk] using hmax
        · simp at h

/-- Witness for C10 at a concrete two-element listing: the handler returns
the deployment with the larger parsed creation time, and it is a member of
the listing. -/
theorem C10_witness :
    get_latest_deployment "my-tool"
        (.ok [mkDep "a" "20250101-000000" DeploymentState.successful,
              mkDep "b" "20250102-000000" DeploymentState.pending]) =
      .ok (mkDep "b" "20250102-000000" DeploymentState.pending) ∧
    mkDep "b" "20250102-000000" DeploymentState.pending ∈
      [mkDep "a" "20250101-000000" DeploymentState.successful,
       mkDep "b" "20250102-000000" DeploymentState.pending] := by
  constructor
  · rfl
  · exact (C10_empty_listing_404_and_latest_is_maximal.2.2.2 "my-tool"
      [mkDep "a" "20250101-000000" DeploymentState.successful,
       mkDep "b" "20250102-000000" DeploymentState.pending]
      (mkDep "b" "20250102-000000" DeploymentState.pending) (by rfl)).1

/-! ## Engine trace helper lemmas -/

theorem set_deployment_as_failed_write_status (d : Deployment) (msg tb : String) :
    (set_deployment_as_failed_write d msg tb).status = DeploymentState.failed := rfl

theorem dictGet?_skipMap (n : String) (l : List (String × DeploymentRunInfo)) :
    dictGet? n (l.map (fun nr =>
      if nr.2.run_status = DeploymentRunState.pending then
        (nr.1, (⟨.skipped, "Skipped due to previous failure"⟩ : DeploymentRunInfo))
      else nr)) =
    (dictGet? n l).map (fun r =>
      if r.run_status = DeploymentRunState.pending then
        (⟨.skipped, "Skipped due to previous failure"⟩ : DeploymentRunInfo)
      else r) := by
  induction l with
  | nil => simp [dictGet?]
  | cons hd tl ih =>
    obtain ⟨k, r⟩ := hd
    simp only [List.map_cons]
    by_cases hr : r.run_status = DeploymentRunState.pending
    · rw [if_pos hr]
      by_cases hk : k = n
      · subst hk
        rw [dictGet?_cons, dictGet?_cons, if_pos rfl, if_pos rfl]
        simp [if_pos hr]
      · rw [dictGet?_cons, dictGet?_cons, if_neg hk, if_neg hk, ih]
    · rw [if_neg hr]
      by_cases hk : k = n
      · subst hk
        rw [dictGet?_cons, dictGet?_cons, if_pos rfl, if_pos rfl]
        simp [if_neg hr]
      · rw [dictGet?_cons, dictGet?_cons, if_neg hk, if_neg hk, ih]

theorem _do_run_trace_statuses (nowStr : String) :
    ∀ (comps : List CompSpec) (d : Deployment),
      d.status = DeploymentState.running ∨ d.status = DeploymentState.successful →
      ∀ x ∈ (_do_run_trace nowStr d comps).1,
        x.status = DeploymentState.running ∨ x.status = DeploymentState.successful := by
  intro comps
  induction comps with
  | nil =>
    intro d hd x hx
    simp [_do_run_trace] at hx
  | cons c rest ih =>
    intro d hd x hx
    simp only [_do_run_trace] at hx
    by_cases hc : c.component_type ≠ "continuous"
    · rw [if_pos hc] at hx
      rcases List.mem_cons.mp hx with h1 | hx2
      · subst h1; exact hd
      · rcases List.mem_cons.mp hx2 with h2 | h3
        · subst h2; exact hd
        · refine ih _ ?_ x h3
          exact hd
    · rw [if_neg hc] at hx
      cases ho : c.outcome with
      | err msg =>
        rw [ho] at hx
        rcases List.mem_cons.mp hx with h1 | hx2
        · subst h1; exact hd
        · rcases List.mem_cons.mp hx2 with h2 | h3
          · subst h2; exact hd
          · simp at h3
      | ok msg =>
        rw [ho] at hx
        rcases List.mem_cons.mp hx with h1 | hx2
        · subst h1; exact hd
        · rcases List.mem_cons.mp hx2 with h2 | h3
          · subst h2; right; rfl
          · refine ih _ ?_ x h3
            exact Or.inr rfl

theorem do_deploy_trace_shape (d0 : Deployment) (bp : BuildPhase) (comps : List CompSpec)
    (nowStr tb : String) :
    (∃ front w, do_deploy_trace d0 bp comps nowStr tb = front ++ [w] ∧
      (∀ x ∈ front, x.status = DeploymentState.running ∨ x.status = DeploymentState.successful) ∧
      w.status = DeploymentState.failed) ∨
    (∀ x ∈ do_deploy_trace d0 bp comps nowStr tb,
      x.status = DeploymentState.running ∨ x.status = DeploymentState.successful) := by
  have henter : ({ d0 with
      status := DeploymentState.running
      long_status := "Started at " ++ nowStr } : Deployment).status = DeploymentState.running := rfl
  cases hout : bp.outcome with
  | error e =>
    left
    refine ⟨(({ d0 with
          status := DeploymentState.running
          long_status := "Started at " ++ nowStr } : Deployment) ::
        bp.writes.map (fun b => { d0 with
          status := DeploymentState.running
          long_status := "Started at " ++ nowStr
          builds := b })),
      set_deployment_as_failed_write { d0 with
        status := DeploymentState.running
        long_status := "Started at " ++ nowStr
        builds := e.2 } e.1 tb,
      ?_, ?_, set_deployment_as_failed_write_status _ _ _⟩
    · simp [do_deploy_trace, hout]
    · intro x hx
      rcases List.mem_cons.mp hx with h1 | h2
      · subst h1; left; rfl
      · obtain ⟨b, _, hb⟩ := List.mem_map.mp h2
        subst hb; left; rfl
  | ok bFinal =>
    cases hexc : (_do_run_trace nowStr { d0 with
        status := DeploymentState.running
        long_status := "Started at " ++ nowStr
        builds := bFinal } comps).2 with
    | none =>
      right
      intro x hx
      simp only [do_deploy_trace, hout, hexc] at hx
      rcases List.mem_cons.mp hx with h1 | h2
      · subst h1; left; rfl
      · rcases List.mem_append.mp h2 with h3 | h4
        · obtain ⟨b, _, hb⟩ := List.mem_map.mp h3
          subst hb; left; rfl
        · exact _do_run_trace_statuses nowStr comps _ (Or.inl rfl) x h4
    | some msg =>
      left
      refine ⟨(({ d0 with
            status := DeploymentState.running
            long_status := "Started at " ++ nowStr } : Deployment) ::
          bp.writes.map (fun b => { d0 with
            status := DeploymentState.running
            long_status := "Started at " ++ nowStr
            builds := b }) ++
          (_do_run_trace nowStr { d0 with
            status := DeploymentState.running
            long_status := "Started at " ++ nowStr
            builds := bFinal } comps).1),
        set_deployment_as_failed_write
          (((_do_run_trace nowStr { d0 with
              status := DeploymentState.running
              long_status := "Started at " ++ nowStr
              builds := bFinal } comps).1.getLast?).getD { d0 with
            status := DeploymentState.running
            long_status := "Started at " ++ nowStr
            builds := bFinal }) msg tb,
        ?_, ?_, set_deployment_as_failed_write_status _ _ _⟩
      · simp [do_deploy_trace, hout, hexc]
      · intro x hx
        rcases List.mem_cons.mp hx with h1 | h2
        · subst h1; left; rfl
        · rcases List.mem_append.mp h2 with h3 | h4
          · obtain ⟨b, _, hb⟩ := List.mem_map.mp h3
            subst hb; left; rfl
          · exact _do_run_trace_statuses nowStr comps _ (Or.inl rfl) x h4

/-! ## C2 -/

/-- C2 counterexample: with two continuous components of which the first
run succeeds and the second fails, the engine persists (in order) statuses
`running, running, successful, successful, successful, failed` — it
persists the terminal status `successful` (write 2) and later persists the
different status `failed` (write 5) for the same deployment, refuting the
claim at this concrete input. -/
theorem C2_counterexample_successful_then_failed :
    ((do_deploy_trace (mkDep "d" "20250101-000000" DeploymentState.pending)
        ⟨[], .ok []⟩
        [⟨"c1", "continuous", .ok "m1"⟩, ⟨"c2", "continuous", .err "boom"⟩]
        "now" "tb").map Deployment.status) =
      [DeploymentState.running, DeploymentState.running, DeploymentState.successful,
       DeploymentState.successful, DeploymentState.successful, DeploymentState.failed] ∧
    DeploymentState.isTerminal DeploymentState.successful = true ∧
    DeploymentState.failed ≠ DeploymentState.successful := by
  refine ⟨?_, rfl, by decide⟩
  rfl

/-- C2 (amended): during the run phase the engine persists
`status = successful` after each successful component, so over several
components it can persist `successful` and later `failed`; what does hold
is that a persisted `failed` is always the final write of the engine task
(nothing is persisted after it), and the engine never persists
`timed_out`. -/
theorem C2_amended_failed_is_final_write :
    ∀ (d0 : Deployment) (bp : BuildPhase) (comps : List CompSpec) (nowStr tb : String)
      (i : Nat),
      (((do_deploy_trace d0 bp comps nowStr tb).get? i).map Deployment.status =
          some DeploymentState.failed →
        (do_deploy_trace d0 bp comps nowStr tb).length = i + 1) ∧
      ((do_deploy_trace d0 bp comps nowStr tb).get? i).map Deployment.status ≠
        some DeploymentState.timed_out := by
  intro d0 bp comps nowStr tb i
  rcases do_deploy_trace_shape d0 bp comps nowStr tb with ⟨front, w, hdecomp, hfront, hw⟩ | hall
  · constructor
    · intro h
      cases hget : (do_deploy_trace d0 bp comps nowStr tb).get? i with
      | none => rw [hget] at h; simp at h
      | some x =>
        rw [hget] at h
        simp only [Option.map_some', Option.some.injEq] at h
        by_cases hi : i < front.length
        · have : front.get? i = some x := by
            rw [hdecomp] at hget
            rw [← List.get?_append hi]
            exact hget
          have hxmem : x ∈ front := List.get?_mem this
          rcases hfront x hxmem with h1 | h1 <;> rw [h] at h1 <;> exact absurd h1 (by decide)
        · have hlen : i < (do_deploy_trace d0 bp comps nowStr tb).length :=
            List.get?_eq_some.mp hget |>.1
          rw [hdecomp, List.length_append, List.length_singleton] at hlen
          rw [hdecomp, List.length_append, List.length_singleton]
          omega
    · intro h
      cases hget : (do_deploy_trace d0 bp comps nowStr tb).get? i with
      | none => rw [hget] at h; simp at h
      | some x =>
        rw [hget] at h
        simp only [Option.map_some', Option.some.injEq] at h
        have hxmem : x ∈ do_deploy_trace d0 bp comps nowStr tb := List.get?_mem hget
        rw [hdecomp] at hxmem
        rcases List.mem_append.mp hxmem with h1 | h1
        · rcases hfront x h1 with h2 | h2 <;> rw [h] at h2 <;> exact absurd h2 (by decide)
        · have : x = w := by simpa using h1
          subst this
          rw [h] at hw
          exact absurd hw (by decide)
  · constructor
    · intro h
      cases hget : (do_deploy_trace d0 bp comps nowStr tb).get? i with
      | none => rw [hget] at h; simp at h
      | some x =>
        rw [hget] at h
        simp only [Option.map_some', Option.some.injEq] at h
        have hxmem : x ∈ do_deploy_trace d0 bp comps nowStr tb := List.get?_mem hget
        rcases hall x hxmem with h1 | h1 <;> rw [h] at h1 <;> exact absurd h1 (by decide)
    · intro h
      cases hget : (do_deploy_trace d0 bp comps nowStr tb).get? i with
      | none => rw [hget] at h; simp at h
      | some x =>
        rw [hget] at h
        simp only [Option.map_some', Option.some.injEq] at h
        have hxmem : x ∈ do_deploy_trace d0 bp comps nowStr tb := List.get?_mem hget
        rcases hall x hxmem with h1 | h1 <;> rw [h] at h1 <;> exact absurd h1 (by decide)

/-- Witness for C2 (amended) at the concrete two-component trace: the
`failed` write at index 5 is the final (sixth) write, and the write at
index 2 is not `timed_out`. -/
theorem C2_amended_witness :
    (do_deploy_trace (mkDep "d" "20250101-000000" DeploymentState.pending)
        ⟨[], .ok []⟩
        [⟨"c1", "continuous", .ok "m1"⟩, ⟨"c2", "continuous", .err "boom"⟩]
        "now" "tb").length = 5 + 1 ∧
    ((do_deploy_trace (mkDep "d" "20250101-000000" DeploymentState.pending)
        ⟨[], .ok []⟩
        [⟨"c1", "continuous", .ok "m1"⟩, ⟨"c2", "continuous", .err "boom"⟩]
        "now" "tb").get? 2).map Deployment.status ≠ some DeploymentState.timed_out := by
  constructor
  · exact (C2_amended_failed_is_final_write (mkDep "d" "20250101-000000" DeploymentState.pending)
      ⟨[], .ok []⟩
      [⟨"c1", "continuous", .ok "m1"⟩, ⟨"c2", "continuous", .err "boom"⟩]
      "now" "tb" 5).1 (by rfl)
  · exact (C2_amended_failed_is_final_write (mkDep "d" "20250101-000000" DeploymentState.pending)
      ⟨[], .ok []⟩
      [⟨"c1", "continuous", .ok "m1"⟩, ⟨"c2", "continuous", .err "boom"⟩]
      "now" "tb" 2).2

/-! ## C4 -/

/-- C4: whenever the engine aborts with an exception, the final write of
the `set_deployment_as_failed_on_error` wrapper sets `status = failed` and
rewrites every run entry still `pending` to `skipped` with long status
"Skipped due to previous failure" (entries in other states are unchanged,
and no entry is left `pending`); and in the concrete build-failure
scenario — the builds API reports `BUILD_FAILURE` for `component1` —
`_wait_for_builds` raises `BuildFailed` with the build left `failed`, and
the wrapper then produces `builds.component1 = failed`,
`runs.component1 = skipped` with that long status, and
`status = failed`. -/
theorem C4_build_failure_marks_pending_runs_skipped :
    (∀ (d : Deployment) (msg tb : String),
      (set_deployment_as_failed_write d msg tb).status = DeploymentState.failed) ∧
    (∀ (d : Deployment) (msg tb n : String) (r : DeploymentRunInfo),
      dictGet? n d.runs = some r →
        dictGet? n (set_deployment_as_failed_write d msg tb).runs =
          some (if r.run_status = DeploymentRunState.pending then
            ⟨.skipped, "Skipped due to previous failure"⟩ else r)) ∧
    (∀ (d : Deployment) (msg tb n : String) (r' : DeploymentRunInfo),
      dictGet? n (set_deployment_as_failed_write d msg tb).runs = some r' →
        r'.run_status ≠ DeploymentRunState.pending) ∧
    ((_wait_for_builds (fun _ _ => _get_build_status (.ok BuildsBuildStatus.BUILD_FAILURE))
        1800 [("component1", ⟨"bid", DeploymentBuildState.pending, ""⟩)]).result =
      .error "Some builds failed, you can check the build logs for more info: component1(id:bid)") ∧
    (dictGet? "component1"
        (_wait_for_builds (fun _ _ => _get_build_status (.ok BuildsBuildStatus.BUILD_FAILURE))
          1800 [("component1", ⟨"bid", DeploymentBuildState.pending, ""⟩)]).builds =
      some ⟨"bid", DeploymentBuildState.failed, ""⟩) ∧
    ((set_deployment_as_failed_write
        { mkDep "d" "20250101-000000" DeploymentState.pending with
          status := DeploymentState.running
          builds := (_wait_for_builds
            (fun _ _ => _get_build_status (.ok BuildsBuildStatus.BUILD_FAILURE))
            1800 [("component1", ⟨"bid", DeploymentBuildState.pending, ""⟩)]).builds
          runs := [("component1", ⟨DeploymentRunState.pending, ""⟩)] }
        "Some builds failed, you can check the build logs for more info: component1(id:bid)"
        "tb").status = DeploymentState.failed ∧
      dictGet? "component1"
        (set_deployment_as_failed_write
          { mkDep "d" "20250101-000000" DeploymentState.pending with
            status := DeploymentState.running
            builds := (_wait_for_builds
              (fun _ _ => _get_build_status (.ok BuildsBuildStatus.BUILD_FAILURE))
              1800 [("component1", ⟨"bid", DeploymentBuildState.pending, ""⟩)]).builds
            runs := [("component1", ⟨DeploymentRunState.pending, ""⟩)] }
          "Some builds failed, you can check the build logs for more info: component1(id:bid)"
          "tb").runs = some ⟨DeploymentRunState.skipped, "Skipped due to previous failure"⟩ ∧
      dictGet? "component1"
        (set_deployment_as_failed_write
          { mkDep "d" "20250101-000000" DeploymentState.pending with
            status := DeploymentState.running
            builds := (_wait_for_builds
              (fun _ _ => _get_build_status (.ok BuildsBuildStatus.BUILD_FAILURE))
              1800 [("component1", ⟨"bid", DeploymentBuildState.pending, ""⟩)]).builds
            runs := [("component1", ⟨DeploymentRunState.pending, ""⟩)] }
          "Some builds failed, you can check the build logs for more info: component1(id:bid)"
          "tb").builds = some ⟨"bid", DeploymentBuildState.failed, ""⟩) := by
  have hloop : _wait_loop (fun _ _ => _get_build_status (.ok BuildsBuildStatus.BUILD_FAILURE))
      1800 [("component1", ⟨"bid", DeploymentBuildState.pending, ""⟩)] ["component1"] 0 =
      ⟨[("component1", ⟨"bid", DeploymentBuildState.failed, ""⟩)], [], 1⟩ := by
    rw [_wait_loop]
    norm_num [pollPass, finishedBuild, dictGet?, dictSet, _get_build_status]
    rw [_wait_loop]
    simp
  have hwf : _wait_for_builds (fun _ _ => _get_build_status (.ok BuildsBuildStatus.BUILD_FAILURE))
      1800 [("component1", ⟨"bid", DeploymentBuildState.pending, ""⟩)] =
      ⟨.error "Some builds failed, you can check the build logs for more info: component1(id:bid)",
        [("component1", ⟨"bid", DeploymentBuildState.failed, ""⟩)], [], 1⟩ := by
    rw [_wait_for_builds]
    norm_num [watchedPending, hloop, joinSpace]
    rfl
  refine ⟨fun d msg tb => rfl, ?_, ?_, ?_, ?_, ?_, ?_, ?_⟩
  · intro d msg tb n r hr
    show dictGet? n (d.runs.map _) = _
    rw [dictGet?_skipMap, hr, Option.map_some']
  · intro d msg tb n r' hr'
    rw [show (set_deployment_as_failed_write d msg tb).runs = d.runs.map _ from rfl,
      dictGet?_skipMap] at hr'
    cases hg : dictGet? n d.runs with
    | none => rw [hg] at hr'; simp at hr'
    | some r =>
      rw [hg, Option.map_some'] at hr'
      simp only [Option.some.injEq] at hr'
      subst hr'
      by_cases hp : r.run_status = DeploymentRunState.pending
      · rw [if_pos hp]; decide
      · rw [if_neg hp]; exact hp
  · rw [hwf]
  · rw [hwf]
    rfl
  · rfl
  · rw [hwf]
    rfl
  · rw [hwf]
    rfl

/-- Witness for C4 at a concrete pending run entry: after the wrapper
write it is `skipped` with the explanatory long status. -/
theorem C4_witness :
    dictGet? "component1"
      (set_deployment_as_failed_write
        { mkDep "d" "20250101-000000" DeploymentState.pending with
          runs := [("component1", ⟨DeploymentRunState.pending, ""⟩)] }
        "boom" "tb").runs =
      some ⟨DeploymentRunState.skipped, "Skipped due to previous failure"⟩ := by
  have h := C4_build_failure_marks_pending_runs_skipped.2.1
    { mkDep "d" "20250101-000000" DeploymentState.pending with
      runs := [("component1", ⟨DeploymentRunState.pending, ""⟩)] }
    "boom" "tb" "component1" ⟨DeploymentRunState.pending, ""⟩ (by rfl)
  simpa using h

/-! ## C6 helper lemmas -/

theorem pollPass_get_not_mem (poll : Nat → String → DeploymentBuildState) (t : Nat) :
    ∀ (pending : List String) (builds : List (String × DeploymentBuildInfo)) (n : String),
      n ∉ pending →
      dictGet? n (pollPass poll t builds pending) = dictGet? n builds := by
  intro pending
  induction pending with
  | nil => intro builds n _; rfl
  | cons m rest ih =>
    intro builds n h
    simp only [pollPass]
    rw [ih _ n (fun hh => h (List.mem_cons_of_mem _ hh))]
    exact dictGet?_dictSet_other m n _ builds
      (fun he => h (he ▸ List.mem_cons_self m rest))

theorem finishedBuild_pollPass_not_mem (poll : Nat → String → DeploymentBuildState)
    (t : Nat) (pending : List String) (builds : List (String × DeploymentBuildInfo))
    (n : String) (h : n ∉ pending) :
    finishedBuild (pollPass poll t builds pending) n = finishedBuild builds n := by
  unfold finishedBuild
  rw [pollPass_get_not_mem poll t pending builds n h]

theorem _wait_loop_invariant (poll : Nat → String → DeploymentBuildState) (T : Nat)
    (W : List String) :
    ∀ (fuel : Nat) (builds : List (String × DeploymentBuildInfo))
      (pending : List String) (t : Nat),
      T - 2 * t ≤ fuel →
      2 * t ≤ T + 1 →
      (∀ n ∈ pending, finishedBuild builds n = false) →
      (∀ n ∈ W, n ∉ pending → finishedBuild builds n = true) →
      (∀ n ∈ pending, n ∈ W) →
      ((_wait_loop poll T builds pending t).pending = [] ∨
        (T ≤ 2 * (_wait_loop poll T builds pending t).ticks ∧
         2 * (_wait_loop poll T builds pending t).ticks ≤ T + 1)) ∧
      (∀ n ∈ (_wait_loop poll T builds pending t).pending,
        finishedBuild (_wait_loop poll T builds pending t).builds n = false) ∧
      (∀ n ∈ W, n ∉ (_wait_loop poll T builds pending t).pending →
        finishedBuild (_wait_loop poll T builds pending t).builds n = true) ∧
      (∀ n ∈ (_wait_loop poll T builds pending t).pending, n ∈ W) := by
  intro fuel
  induction fuel with
  | zero =>
    intro builds pending t hfuel ht h1 h2 h3
    have hstop : ¬ (pending ≠ [] ∧ 2 * t < T) := by
      rintro ⟨-, hlt⟩
      omega
    rw [_wait_loop, if_neg hstop]
    dsimp only
    refine ⟨?_, h1, h2, h3⟩
    by_cases hp : pending = []
    · exact Or.inl hp
    · right
      rcases Decidable.not_and_iff_or_not.mp hstop with hc | hc
      · exact absurd hp (by simpa using hc)
      · constructor
        · omega
        · exact ht
  | succ fuel ih =>
    intro builds pending t hfuel ht h1 h2 h3
    by_cases hcond : pending ≠ [] ∧ 2 * t < T
    · rw [_wait_loop, if_pos hcond]
      have hlt := hcond.2
      refine ih (pollPass poll t builds pending)
        (pending.filter (fun n => ¬ finishedBuild (pollPass poll t builds pending) n))
        (t + 1) (by omega) (by omega) ?_ ?_ ?_
      · intro n hn
        rw [List.mem_filter] at hn
        simpa using hn.2
      · intro n hnW hn
        by_cases hmem : n ∈ pending
        · have : ¬ (n ∈ pending ∧
              (decide ¬ finishedBuild (pollPass poll t builds pending) n = true) = true) := by
            intro hc
            exact hn (List.mem_filter.mpr hc)
          simp only [hmem, true_and, decide_eq_true_eq] at this
          simpa using this
        · rw [finishedBuild_pollPass_not_mem poll t pending builds n hmem]
          exact h2 n hnW hmem
      · intro n hn
        rw [List.mem_filter] at hn
        exact h3 n hn.1
    · rw [_wait_loop, if_neg hcond]
      dsimp only
      refine ⟨?_, h1, h2, h3⟩
      by_cases hp : pending = []
      · exact Or.inl hp
      · right
        rcases Decidable.not_and_iff_or_not.mp hcond with hc | hc
        · exact absurd hp (by simpa using hc)
        · constructor
          · omega
          · exact ht

/-! ## C6 -/

/-- C6: the poll loop of `_wait_for_builds` always terminates (the embedded
loop is a total function): at exit either `pending_builds` is empty — every
watched build has reached `successful` or `failed` and left the set, and
those still pending have not — or the elapsed wall-clock time `2*ticks`
has reached `build_timeout_seconds` and is at most one 2-second tick past
it; in the timeout case the raised `BuildFailed` message is exactly
"Some builds took too long to finish: " followed by the space-joined names
of the still-pending components.  The hypothesis states that `builds0` has
no shadowed keys (each entry is what its key looks up to), which holds of
any embedded Python dict. -/
theorem C6_wait_for_builds_terminates_within_one_tick :
    ∀ (poll : Nat → String → DeploymentBuildState) (T : Nat)
      (builds0 : List (String × DeploymentBuildInfo)),
      (∀ n b, (n, b) ∈ builds0 → dictGet? n builds0 = some b) →
      ((_wait_for_builds poll T builds0).pending = [] ∨
        (T ≤ 2 * (_wait_for_builds poll T builds0).ticks ∧
         2 * (_wait_for_builds poll T builds0).ticks ≤ T + 1)) ∧
      ((_wait_for_builds poll T builds0).pending ≠ [] →
        (_wait_for_builds poll T builds0).result =
          .error ("Some builds took too long to finish: " ++
            joinSpace (_wait_for_builds poll T builds0).pending)) ∧
      (∀ n ∈ (_wait_for_builds poll T builds0).pending,
        finishedBuild (_wait_for_builds poll T builds0).builds n = false) ∧
      (∀ n ∈ watchedPending builds0, n ∉ (_wait_for_builds poll T builds0).pending →
        finishedBuild (_wait_for_builds poll T builds0).builds n = true) ∧
      (∀ n ∈ (_wait_for_builds poll T builds0).pending, n ∈ watchedPending builds0) := by
  intro poll T builds0 hkeys
  have hinit1 : ∀ n ∈ watchedPending builds0, finishedBuild builds0 n = false := by
    intro n hn
    unfold watchedPending at hn
    obtain ⟨nb, hnb, hfst⟩ := List.mem_map.mp hn
    rw [List.mem_filter] at hnb
    obtain ⟨hmem, hst⟩ := hnb
    have hget : dictGet? nb.1 builds0 = some nb.2 := hkeys nb.1 nb.2 hmem
    subst hfst
    unfold finishedBuild
    rw [hget]
    simp only [decide_eq_true_eq] at hst
    rcases hst with hst | hst <;> simp [hst]
  have hmain := _wait_loop_invariant poll T (watchedPending builds0) T builds0
    (watchedPending builds0) 0 (by omega) (by omega) hinit1
    (fun n hnW hn => absurd hnW hn) (fun n hn => hn)
  have hpend : (_wait_for_builds poll T builds0).pending =
      (_wait_loop poll T builds0 (watchedPending builds0) 0).pending := rfl
  have hbuilds : (_wait_for_builds poll T builds0).builds =
      (_wait_loop poll T builds0 (watchedPending builds0) 0).builds := rfl
  have hticks : (_wait_for_builds poll T builds0).ticks =
      (_wait_loop poll T builds0 (watchedPending builds0) 0).ticks := rfl
  obtain ⟨hm1, hm2, hm3, hm4⟩ := hmain
  refine ⟨?_, ?_, ?_, ?_, ?_⟩
  · rw [hpend, hticks]
    exact hm1
  · intro hne
    rw [hpend] at hne
    show (if (_wait_loop poll T builds0 (watchedPending builds0) 0).pending ≠ [] then
        Except.error ("Some builds took too long to finish: " ++
          joinSpace (_wait_loop poll T builds0 (watchedPending builds0) 0).pending)
      else _) = _
    rw [if_pos hne]
    rfl
  · rw [hpend, hbuilds]
    exact hm2
  · rw [hpend, hbuilds]
    exact hm3
  · rw [hpend]
    exact hm4

/-- Witness for C6: a single watched build that never leaves `running`
with `build_timeout_seconds = 4` makes the loop exit after 2 ticks
(elapsed 4 = timeout, within one tick past it) and raise the timeout
`BuildFailed` naming exactly that component. -/
theorem C6_witness :
    (_wait_for_builds (fun _ _ => DeploymentBuildState.running) 4
      [("c1", ⟨"b1", DeploymentBuildState.pending, ""⟩)]).result =
      .error ("Some builds took too long to finish: " ++
        joinSpace (_wait_for_builds (fun _ _ => DeploymentBuildState.running) 4
          [("c1", ⟨"b1", DeploymentBuildState.pending, ""⟩)]).pending) ∧
    4 ≤ 2 * (_wait_for_builds (fun _ _ => DeploymentBuildState.running) 4
      [("c1", ⟨"b1", DeploymentBuildState.pending, ""⟩)]).ticks := by
  have hloop : _wait_loop (fun _ _ => DeploymentBuildState.running) 4
      [("c1", ⟨"b1", DeploymentBuildState.pending, ""⟩)] ["c1"] 0 =
      ⟨[("c1", ⟨"b1", DeploymentBuildState.running, ""⟩)], ["c1"], 2⟩ := by
    rw [_wait_loop, if_pos (by norm_num)]
    rw [show pollPass (fun _ _ => DeploymentBuildState.running) 0
        [("c1", ⟨"b1", DeploymentBuildState.pending, ""⟩)] ["c1"] =
      [("c1", ⟨"b1", DeploymentBuildState.running, ""⟩)] from by decide]
    rw [show List.filter (fun n => ¬ finishedBuild
        [("c1", ⟨"b1", DeploymentBuildState.running, ""⟩)] n) ["c1"] = ["c1"] from by decide]
    rw [_wait_loop, if_pos (by norm_num)]
    rw [show pollPass (fun _ _ => DeploymentBuildState.running) 1
        [("c1", ⟨"b1", DeploymentBuildState.running, ""⟩)] ["c1"] =
      [("c1", ⟨"b1", DeploymentBuildState.running, ""⟩)] from by decide]
    rw [show List.filter (fun n => ¬ finishedBuild
        [("c1", ⟨"b1", DeploymentBuildState.running, ""⟩)] n) ["c1"] = ["c1"] from by decide]
    rw [_wait_loop, if_neg (by norm_num)]
  have hpend : (_wait_for_builds (fun _ _ => DeploymentBuildState.running) 4
      [("c1", ⟨"b1", DeploymentBuildState.pending, ""⟩)]).pending = ["c1"] := by
    show (_wait_loop (fun _ _ => DeploymentBuildState.running) 4
      [("c1", ⟨"b1", DeploymentBuildState.pending, ""⟩)]
      (watchedPending [("c1", ⟨"b1", DeploymentBuildState.pending, ""⟩)]) 0).pending = ["c1"]
    norm_num [watchedPending, hloop]
  have h := C6_wait_for_builds_terminates_within_one_tick
    (fun _ _ => DeploymentBuildState.running) 4
    [("c1", ⟨"b1", DeploymentBuildState.pending, ""⟩)]
    (by
      intro n b hmem
      simp only [List.mem_singleton, Prod.mk.injEq] at hmem
      obtain ⟨h1, h2⟩ := hmem
      subst h1
      subst h2
      rfl)
  refine ⟨h.2.1 (by rw [hpend]; simp), ?_⟩
  rcases h.1 with hc | hc
  · rw [hpend] at hc
    simp at hc
  · exact hc.1
